import Mathlib

/-!
Shallow embedding of the DexScreener screening bot (`src/bot.py`).

Python floats are modelled as rationals; a numeric field that is missing or
unparseable in the provider's response is `none`, and `to_float` turns it
into the default `0`, as in the source.  Network calls are modelled as
explicit inputs: the two boosted listings are passed in as lists, and the
per-token pool fetch is a function returning `Except String (List Pair)`,
where `Except.error` models an exception raised by the HTTP layer
(`requests.get` / `raise_for_status`).
-/

/-- Configuration values read from the environment at module load:
`MIN_LIQ_USD`, `MIN_VOL24_USD`, `MAX_FDV_LIQ` (`src/bot.py` lines 17-19). -/
structure Config where
  minLiqUsd : ℚ
  minVol24Usd : ℚ
  maxFdvLiq : ℚ
  deriving DecidableEq

/-- The default configuration: `MIN_LIQ_USD=20000`, `MIN_VOL24_USD=50000`,
`MAX_FDV_LIQ=500`. -/
def defaultConfig : Config := ⟨20000, 50000, 500⟩

/-- One pair snapshot from the provider, with the fields `compute_metrics`,
`pick_best_pair` and `screen_tokens` actually read.  `chainId` is
`pair.get("chainId")`; `liqUsd` is `(pair.get("liquidity") or {}).get("usd")`;
`vol24h` is `(pair.get("volume") or {}).get("h24")`; `chg5m`/`chg1h`/`chg24`
are `(pair.get("priceChange") or {}).get(...)`. -/
structure Pair where
  chainId : Option String
  liqUsd : Option ℚ
  vol24h : Option ℚ
  fdv : Option ℚ
  chg5m : Option ℚ
  chg1h : Option ℚ
  chg24 : Option ℚ
  pairCreatedAt : Option ℚ
  deriving DecidableEq

/-- One boosted-listing entry (`token-boosts` endpooints): the aggregator
reads `it.get("chainId")` and `it.get("tokenAddress")`. -/
structure Entry where
  chainId : Option String
  tokenAddress : Option String
  deriving DecidableEq

/-- The dict returned by `compute_metrics` (`src/bot.py` lines 179-192). -/
structure Metrics where
  liq : ℚ
  vol24 : ℚ
  fdv : ℚ
  chg5m : ℚ
  chg1h : ℚ
  chg24 : ℚ
  v_liq : ℚ
  fdv_liq : ℚ
  age_m : Option ℚ
  flags : List String
  score : ℤ
  label : String
  deriving DecidableEq

/-- `to_float(x)` with the default defaulting to `0.0`: `none` models both a
missing field and an unparseable value (`src/bot.py` lines 33-39). -/
def to_float (x : Option ℚ) : ℚ := x.getD 0

/-- `age_minutes(pair_created_at)` (`src/bot.py` lines 111-119).  The wall
clock `time.time()` is passed in explicitly as `now` (seconds). -/
def age_minutes (now : ℚ) (pairCreatedAt : Option ℚ) : Option ℚ :=
  let ts := to_float pairCreatedAt
  if ts ≤ 0 then none
  else if ts > 10000000000 then some ((now - ts / 1000) / 60)
  else some ((now - ts) / 60)

/-- The age flags appended by `compute_metrics` (`src/bot.py` lines 153-158). -/
def age_flags (age_m : Option ℚ) : List String :=
  match age_m with
  | none => []
  | some a => if a < 60 then ["Ultra-new (<1h)"] else if a < 24 * 60 then ["New (<24h)"] else []

/-- The liquidity block of the score (`src/bot.py` lines 162-164). -/
def liq_step (liq : ℚ) (s : ℤ) : ℤ :=
  if liq ≥ 200000 then s + 20 else if liq ≥ 50000 then s + 10
  else if liq < 20000 then s - 15 else s

/-- The activity block of the score (`src/bot.py` lines 166-168). -/
def act_step (v_liq : ℚ) (s : ℤ) : ℤ :=
  if v_liq ≥ 2 then s + 10 else if v_liq ≥ (1 : ℚ)/2 then s + 5
  else if v_liq < (1 : ℚ)/10 then s - 5 else s

/-- The FDV block of the score (`src/bot.py` lines 170-171). -/
def fdv_step (fdv_liq : ℚ) (s : ℤ) : ℤ :=
  if fdv_liq ≥ 500 then s - 10 else if fdv_liq ≥ 200 then s - 5 else s

/-- The pump block of the score (`src/bot.py` line 173). -/
def pump_step (chg5m chg1h : ℚ) (s : ℤ) : ℤ :=
  if chg5m ≥ 20 ∨ chg1h ≥ 50 then s - 5 else s

/-- The dump block of the score (`src/bot.py` line 174). -/
def dump_step (chg5m chg1h : ℚ) (s : ℤ) : ℤ :=
  if chg5m ≤ -20 ∨ chg1h ≤ -50 then s - 5 else s

/-- The score computed by `compute_metrics` before the final clamp
(`src/bot.py` lines 160-174): start at 50 and apply the five adjustment
blocks in order. -/
def raw_score (liq v_liq fdv_liq chg5m chg1h : ℚ) : ℤ :=
  dump_step chg5m chg1h (pump_step chg5m chg1h (fdv_step fdv_liq
    (act_step v_liq (liq_step liq 50))))

/-- `compute_metrics(pair)` (`src/bot.py` lines 122-192).  The thresholds
`MIN_LIQ_USD`/`MIN_VOL24_USD` used for the flags come from `cfg`; the score
thresholds are the literals of the source.  Python's truthiness test
`if fdv_liq and ...` is modelled as `fdv_liq ≠ 0 ∧ ...`. -/
def compute_metrics (cfg : Config) (now : ℚ) (pair : Pair) : Metrics :=
  let liq := to_float pair.liqUsd
  let vol24 := to_float pair.vol24h
  let fdv := to_float pair.fdv
  let chg5m := to_float pair.chg5m
  let chg1h := to_float pair.chg1h
  let chg24 := to_float pair.chg24
  let v_liq := if liq > 0 then vol24 / liq else 0
  let fdv_liq := if liq > 0 ∧ fdv > 0 then fdv / liq else 0
  let age_m := age_minutes now pair.pairCreatedAt
  let flags :=
    (if liq < cfg.minLiqUsd then ["Very low liquidity"] else []) ++
    (if vol24 < cfg.minVol24Usd then ["Low 24h volume"] else []) ++
    (if fdv_liq ≠ 0 ∧ fdv_liq > 200 then ["FDV high vs liquidity"] else []) ++
    (if fdv_liq ≠ 0 ∧ fdv_liq > 500 then ["FDV extreme vs liquidity"] else []) ++
    (if chg5m ≥ 15 ∧ chg1h ≥ 30 ∧ liq < 50000 then ["Likely coordinated pump risk"] else []) ++
    (if chg5m ≤ -15 ∨ chg1h ≤ -30 then ["Sharp dump risk"] else []) ++
    age_flags age_m
  let score := max 0 (min 100 (raw_score liq v_liq fdv_liq chg5m chg1h))
  let label := if score ≥ 70 then "LOW RISK (relative)"
               else if score ≥ 50 then "MODERATE RISK" else "HIGH RISK"
  ⟨liq, vol24, fdv, chg5m, chg1h, chg24, v_liq, fdv_liq, age_m, flags, score, label⟩

/-- `candidate_passes(m)` (`src/bot.py` lines 195-203), with the three
environment thresholds passed in as `cfg`. -/
def candidate_passes (cfg : Config) (m : Metrics) : Bool :=
  if m.liq < cfg.minLiqUsd then false
  else if m.vol24 < cfg.minVol24Usd then false
  else if m.fdv_liq ≠ 0 ∧ m.fdv_liq > cfg.maxFdvLiq then false
  else true

/-- `m["flags"].append(s)` on the metrics dict. -/
def add_flag (m : Metrics) (s : String) : Metrics :=
  ⟨m.liq, m.vol24, m.fdv, m.chg5m, m.chg1h, m.chg24, m.v_liq, m.fdv_liq,
   m.age_m, m.flags ++ [s], m.score, m.label⟩

/-- `pick_best_pair(pairs, chain_id)` (`src/bot.py` lines 103-108): keep the
pairs on the target chain, sort them by liquidity descending (Python's
`list.sort(key=..., reverse=True)` is a stable descending sort, modelled by
`mergeSort` with the reversed comparison) and return the first, or `None`
when no pair is on the chain. -/
def pick_best_pair (pairs : List Pair) (chain : String) : Option Pair :=
  let ps := pairs.filter (fun p => p.chainId == some chain)
  match ps.mergeSort (fun a b => to_float b.liqUsd ≤ to_float a.liqUsd) with
  | [] => none
  | p :: _ => some p

/-- The key `(c, addr)` used by `fetch_boost_candidates` for deduplication. -/
def entry_key (e : Entry) : String × String :=
  (e.chainId.getD "", e.tokenAddress.getD "")

/-- The loop body of `fetch_boost_candidates` (`src/bot.py` lines 220-231):
walk the concatenated raw list, skipping entries whose chain id or token
address is falsy (`None` or the empty string), entries on another chain, and
entries whose `(chain, address)` key was already seen. -/
def fbc_go (chain : String) : List Entry → List (String × String) → List Entry
  | [], _ => []
  | it :: rest, seen =>
    match it.chainId, it.tokenAddress with
    | some c, some addr =>
      if c.isEmpty ∨ addr.isEmpty then fbc_go chain rest seen
      else if c ≠ chain then fbc_go chain rest seen
      else if (c, addr) ∈ seen then fbc_go chain rest seen
      else it :: fbc_go chain rest ((c, addr) :: seen)
    | _, _ => fbc_go chain rest seen

/-- `fetch_boost_candidates(chain_id)` (`src/bot.py` lines 209-233), with the
two boosted listings (the responses of `ds_boosts_latest()` and
`ds_boosts_top()`) passed in as data. -/
def fetch_boost_candidates (latest top : List Entry) (chain : String) : List Entry :=
  fbc_go chain (latest ++ top) []

/-- One element of the list `screen_tokens` returns: the dict
`{"tokenAddress": ..., "pair": ..., "m": ...}` (`src/bot.py` lines 257-261). -/
structure ScoredItem where
  tokenAddress : String
  pair : Pair
  m : Metrics
  deriving DecidableEq

/-- The comparison realizing `scored.sort(key=lambda x: (x["m"]["score"],
x["m"]["liq"]), reverse=True)`: `a` may come before `b` iff `a`'s key tuple
is lexicographically at least `b`'s. -/
def rank_key_le (a b : ScoredItem) : Bool :=
  decide (b.m.score < a.m.score ∨ (a.m.score = b.m.score ∧ b.m.liq ≤ a.m.liq))

/-- The ranking step of `screen_tokens` (`src/bot.py` line 264): a stable
sort by score descending, then liquidity descending. -/
def rank_scored (scored : List ScoredItem) : List ScoredItem :=
  scored.mergeSort rank_key_le

/-- The per-candidate loop of `screen_tokens` (`src/bot.py` lines 240-261).
`fetchPools` models `ds_token_pools(chain_id, token_addr)`: `Except.error`
is a raised exception, which propagates out of the loop (there is no
`try/except` around the fetch in the source); `Except.ok` is the normalized
list the endpoint returned.  A candidate with no pool on the target chain is
skipped; a passing candidate contributes one `ScoredItem`, in loop order. -/
def screen_loop (fetchPools : String → Except String (List Pair)) (cfg : Config)
    (now : ℚ) (chain : String) : List Entry → Except String (List ScoredItem)
  | [] => Except.ok []
  | t :: rest =>
    match fetchPools (t.tokenAddress.getD "") with
    | Except.error e => Except.error e
    | Except.ok pools =>
      match pick_best_pair pools chain with
      | none => screen_loop fetchPools cfg now chain rest
      | some best =>
        let m0 := compute_metrics cfg now best
        let m := if m0.liq < 40000
                 then add_flag m0 "Boost + low liquidity (marketing pump risk)"
                 else m0
        match screen_loop fetchPools cfg now chain rest with
        | Except.error e => Except.error e
        | Except.ok l =>
          if candidate_passes cfg m
          then Except.ok (⟨t.tokenAddress.getD "", best, m⟩ :: l)
          else Except.ok l

/-- `screen_tokens(chain_id, limit)` (`src/bot.py` lines 236-265): aggregate
the boosted listings, loop over the candidates fetching pool data, then sort
by `(score, liq)` descending and truncate to `limit`. -/
def screen_tokens (latest top : List Entry) (fetchPools : String → Except String (List Pair))
    (cfg : Config) (now : ℚ) (chain : String) (limit : Nat) :
    Except String (List ScoredItem) :=
  match screen_loop fetchPools cfg now chain (fetch_boost_candidates latest top chain) with
  | Except.error e => Except.error e
  | Except.ok scored => Except.ok ((rank_scored scored).take limit)

/-- State of the auto-screen machinery (`src/bot.py` lines 484-533):
`jobs` is the `AUTOSCREEN_JOBS` dict (chat id, timer id) in insertion order;
`nextId` numbers the timers handed out by `job_queue.run_repeating`, so a
timer id is a created timer iff it is below `nextId`; `cancelled` records
the timers on which `schedule_removal()` was called. -/
structure RegState where
  jobs : List (Nat × Nat)
  nextId : Nat
  cancelled : List Nat
  deriving DecidableEq

/-- Dict lookup `AUTOSCREEN_JOBS.get(chat_id)` on the association list. -/
def jobs_get (jobs : List (Nat × Nat)) (k : Nat) : Option Nat :=
  match jobs with
  | [] => none
  | (k', v) :: rest => if k' = k then some v else jobs_get rest k

/-- Dict removal `AUTOSCREEN_JOBS.pop(chat_id, None)`: drop the binding of
`k` (a Python dict has at most one). -/
def jobs_del (jobs : List (Nat × Nat)) (k : Nat) : List (Nat × Nat) :=
  jobs.filter (fun p => p.1 ≠ k)

/-- The `mode == "on"` branch of `autoscreen` (`src/bot.py` lines 503-533):
if the chat already has a job, reply "Auto-screen is already ON." and leave
the registry alone; otherwise create a fresh repeating timer and store it. -/
def autoscreen_on (s : RegState) (k : Nat) : RegState × String :=
  match jobs_get s.jobs k with
  | some _ => (s, "Auto-screen is already ON.")
  | none => (⟨s.jobs ++ [(k, s.nextId)], s.nextId + 1, s.cancelled⟩, "Auto-screen enabled")

/-- The `mode == "off"` branch of `autoscreen` (`src/bot.py` lines 495-500):
pop the chat's job if any, cancel it, and reply "Auto-screen disabled."
either way. -/
def autoscreen_off (s : RegState) (k : Nat) : RegState × String :=
  match jobs_get s.jobs k with
  | some j => (⟨jobs_del s.jobs k, s.nextId, j :: s.cancelled⟩, "Auto-screen disabled.")
  | none => (s, "Auto-screen disabled.")

/-- The registry states reachable from module load (`AUTOSCREEN_JOBS = {}`)
by any interleaving of `/autoscreen on` and `/autoscreen off` commands. -/
inductive Reachable : RegState → Prop where
  | start : Reachable ⟨[], 0, []⟩
  | on_step {s : RegState} (k : Nat) : Reachable s → Reachable (autoscreen_on s k).1
  | off_step {s : RegState} (k : Nat) : Reachable s → Reachable (autoscreen_off s k).1

/-- Validity of a boosted-listing entry per the §4.2 words: entries missing
the chain identifier or the token address (absent or empty), or whose chain
differs from the target, are dropped. -/
def valid_for (chain : String) (e : Entry) : Bool :=
  match e.chainId, e.tokenAddress with
  | some c, some a => ¬c.isEmpty ∧ ¬a.isEmpty ∧ c = chain
  | _, _ => false

/-- First-occurrence deduplication by `entry_key`, per the §4.2 words:
keep an entry iff its `(chain, address)` key was not seen before it. -/
def dedup_first (seen : List (String × String)) : List Entry → List Entry
  | [] => []
  | e :: rest =>
    if entry_key e ∈ seen then dedup_first seen rest
    else e :: dedup_first (entry_key e :: seen) rest

/-- CandidateAggregator as §4.2 words it: drop invalid entries from the
concatenation of the two listings, then deduplicate keeping first
occurrences. -/
def aggregator_from_spec (latest top : List Entry) (chain : String) : List Entry :=
  dedup_first [] ((latest ++ top).filter (valid_for chain))

/-- The liquidity adjustment the source actually applies (the three `elif`
branches of `src/bot.py` lines 162-164, with no separate branch for
liquidity of 0 or below). -/
def liq_adjust (liq : ℚ) : ℤ :=
  if liq ≥ 200000 then 20 else if liq ≥ 50000 then 10 else if liq < 20000 then -15 else 0

/-- The activity (volume/liquidity) adjustment of `src/bot.py` lines
166-168, applied to `v_liq` unconditionally — including `v_liq = 0` from a
non-positive liquidity, which lands in the `< 0.1` branch. -/
def act_adjust (v : ℚ) : ℤ :=
  if v ≥ 2 then 10 else if v ≥ (1 : ℚ)/2 then 5 else if v < (1 : ℚ)/10 then -5 else 0

/-- The FDV/liquidity adjustment of `src/bot.py` lines 170-171. -/
def fdv_adjust (f : ℚ) : ℤ :=
  if f ≥ 500 then -10 else if f ≥ 200 then -5 else 0

/-- The pump adjustment of `src/bot.py` line 173. -/
def pump_adjust (c5 c1 : ℚ) : ℤ :=
  if c5 ≥ 20 ∨ c1 ≥ 50 then -5 else 0

/-- The dump adjustment of `src/bot.py` line 174. -/
def dump_adjust (c5 c1 : ℚ) : ℤ :=
  if c5 ≤ -20 ∨ c1 ≤ -50 then -5 else 0

/-- The all-defaults snapshot: every field missing, so every numeric reads 0. -/
def pairZero : Pair := ⟨none, none, none, none, none, none, none, none⟩

/-- Snapshot with a 5-minute change of -15 percent and nothing else. -/
def pairDump : Pair := ⟨none, none, none, none, some (-15), none, none, none⟩

/-- Snapshot with a 5-minute change of +25 percent and nothing else. -/
def pairPump : Pair := ⟨none, none, none, none, some 25, none, none, none⟩

/-- Snapshot with liquidity 4, volume 2 and fdv 8 (all positive). -/
def pairRich : Pair := ⟨some "solana", some 4, some 2, some 8, none, none, none, none⟩

/-- The §8 example metrics: liquidity 25,000, volume 60,000, unknown
fdv/liquidity ratio. -/
def mPass : Metrics := ⟨25000, 60000, 0, 0, 0, 0, 0, 0, none, [], 0, ""⟩

/-- Boosted-listing entry (sol, X) of the §8 aggregator example. -/
def entX : Entry := ⟨some "solana", some "X"⟩

/-- Boosted-listing entry (sol, Y) of the §8 aggregator example. -/
def entY : Entry := ⟨some "solana", some "Y"⟩

/-- Boosted-listing entry (sol, Z) of the §8 aggregator example. -/
def entZ : Entry := ⟨some "solana", some "Z"⟩

/-- A scored item carrying only the ranking keys: score and liquidity. -/
def mk_scored (sc : ℤ) (liq : ℚ) : ScoredItem :=
  ⟨"", pairZero, ⟨liq, 0, 0, 0, 0, 0, 0, 0, none, [], sc, ""⟩⟩

/-- A pool fetch that always raises (every HTTP call fails). -/
def fetch_always_raises : String → Except String (List Pair) :=
  fun _ => Except.error "boom"

/-- A pool fetch that always returns an empty pool list. -/
def fetch_always_empty : String → Except String (List Pair) :=
  fun _ => Except.ok []

theorem liq_step_eq (liq : ℚ) (s : ℤ) : liq_step liq s = s + liq_adjust liq := by
  simp only [liq_step, liq_adjust]; split_ifs <;> omega

theorem act_step_eq (v : ℚ) (s : ℤ) : act_step v s = s + act_adjust v := by
  simp only [act_step, act_adjust]; split_ifs <;> omega

theorem fdv_step_eq (f : ℚ) (s : ℤ) : fdv_step f s = s + fdv_adjust f := by
  simp only [fdv_step, fdv_adjust]; split_ifs <;> omega

theorem pump_step_eq (c5 c1 : ℚ) (s : ℤ) : pump_step c5 c1 s = s + pump_adjust c5 c1 := by
  simp only [pump_step, pump_adjust]; split_ifs <;> omega

theorem dump_step_eq (c5 c1 : ℚ) (s : ℤ) : dump_step c5 c1 s = s + dump_adjust c5 c1 := by
  simp only [dump_step, dump_adjust]; split_ifs <;> omega

theorem raw_score_decomp (liq v f c5 c1 : ℚ) :
    raw_score liq v f c5 c1 =
      50 + liq_adjust liq + act_adjust v + fdv_adjust f + pump_adjust c5 c1
        + dump_adjust c5 c1 := by
  simp only [raw_score, liq_step_eq, act_step_eq, fdv_step_eq, pump_step_eq, dump_step_eq]

theorem liq_adjust_range (liq : ℚ) : -15 ≤ liq_adjust liq ∧ liq_adjust liq ≤ 20 := by
  simp only [liq_adjust]; split_ifs <;> omega

theorem act_adjust_range (v : ℚ) : -5 ≤ act_adjust v ∧ act_adjust v ≤ 10 := by
  simp only [act_adjust]; split_ifs <;> omega

theorem fdv_adjust_range (f : ℚ) : -10 ≤ fdv_adjust f ∧ fdv_adjust f ≤ 0 := by
  simp only [fdv_adjust]; split_ifs <;> omega

theorem pump_adjust_range (c5 c1 : ℚ) : -5 ≤ pump_adjust c5 c1 ∧ pump_adjust c5 c1 ≤ 0 := by
  simp only [pump_adjust]; split_ifs <;> omega

theorem dump_adjust_range (c5 c1 : ℚ) : -5 ≤ dump_adjust c5 c1 ∧ dump_adjust c5 c1 ≤ 0 := by
  simp only [dump_adjust]; split_ifs <;> omega

theorem raw_score_in_range (liq v f c5 c1 : ℚ) :
    10 ≤ raw_score liq v f c5 c1 ∧ raw_score liq v f c5 c1 ≤ 80 := by
  have h1 := liq_adjust_range liq
  have h2 := act_adjust_range v
  have h3 := fdv_adjust_range f
  have h4 := pump_adjust_range c5 c1
  have h5 := dump_adjust_range c5 c1
  rw [raw_score_decomp]
  omega

theorem compute_metrics_score (cfg : Config) (now : ℚ) (p : Pair) :
    (compute_metrics cfg now p).score =
      max 0 (min 100 (raw_score (compute_metrics cfg now p).liq
        (compute_metrics cfg now p).v_liq (compute_metrics cfg now p).fdv_liq
        (compute_metrics cfg now p).chg5m (compute_metrics cfg now p).chg1h)) := rfl

theorem compute_metrics_label (cfg : Config) (now : ℚ) (p : Pair) :
    (compute_metrics cfg now p).label =
      (if (compute_metrics cfg now p).score ≥ 70 then "LOW RISK (relative)"
       else if (compute_metrics cfg now p).score ≥ 50 then "MODERATE RISK"
       else "HIGH RISK") := rfl

theorem compute_metrics_v_liq (cfg : Config) (now : ℚ) (p : Pair) :
    (compute_metrics cfg now p).v_liq =
      (if (compute_metrics cfg now p).liq > 0
       then (compute_metrics cfg now p).vol24 / (compute_metrics cfg now p).liq
       else 0) := rfl

theorem compute_metrics_fdv_liq (cfg : Config) (now : ℚ) (p : Pair) :
    (compute_metrics cfg now p).fdv_liq =
      (if (compute_metrics cfg now p).liq > 0 ∧ (compute_metrics cfg now p).fdv > 0
       then (compute_metrics cfg now p).fdv / (compute_metrics cfg now p).liq
       else 0) := rfl

theorem mem_ite_singleton {c : Prop} [Decidable c] {a b : String} :
    (a ∈ if c then [b] else ([] : List String)) ↔ a = b ∧ c := by
  split <;> simp_all

theorem mem_age_flags {o : Option ℚ} {s : String} :
    s ∈ age_flags o ↔
      (s = "Ultra-new (<1h)" ∧ ∃ a, o = some a ∧ a < 60) ∨
      (s = "New (<24h)" ∧ ∃ a, o = some a ∧ ¬a < 60 ∧ a < 24 * 60) := by
  cases o with
  | none => simp [age_flags]
  | some a =>
    simp only [age_flags]
    split_ifs with h1 h2 <;> simp_all

theorem compute_metrics_flags (cfg : Config) (now : ℚ) (p : Pair) :
    (compute_metrics cfg now p).flags =
      (if (compute_metrics cfg now p).liq < cfg.minLiqUsd
        then ["Very low liquidity"] else []) ++
      (if (compute_metrics cfg now p).vol24 < cfg.minVol24Usd
        then ["Low 24h volume"] else []) ++
      (if (compute_metrics cfg now p).fdv_liq ≠ 0 ∧ (compute_metrics cfg now p).fdv_liq > 200
        then ["FDV high vs liquidity"] else []) ++
      (if (compute_metrics cfg now p).fdv_liq ≠ 0 ∧ (compute_metrics cfg now p).fdv_liq > 500
        then ["FDV extreme vs liquidity"] else []) ++
      (if (compute_metrics cfg now p).chg5m ≥ 15 ∧ (compute_metrics cfg now p).chg1h ≥ 30 ∧
            (compute_metrics cfg now p).liq < 50000
        then ["Likely coordinated pump risk"] else []) ++
      (if (compute_metrics cfg now p).chg5m ≤ -15 ∨ (compute_metrics cfg now p).chg1h ≤ -30
        then ["Sharp dump risk"] else []) ++
      age_flags (compute_metrics cfg now p).age_m := rfl

theorem mem_flags_iff (cfg : Config) (now : ℚ) (p : Pair) (s : String) :
    s ∈ (compute_metrics cfg now p).flags ↔
      (s = "Very low liquidity" ∧ (compute_metrics cfg now p).liq < cfg.minLiqUsd) ∨
      (s = "Low 24h volume" ∧ (compute_metrics cfg now p).vol24 < cfg.minVol24Usd) ∨
      (s = "FDV high vs liquidity" ∧ (compute_metrics cfg now p).fdv_liq ≠ 0 ∧
        (compute_metrics cfg now p).fdv_liq > 200) ∨
      (s = "FDV extreme vs liquidity" ∧ (compute_metrics cfg now p).fdv_liq ≠ 0 ∧
        (compute_metrics cfg now p).fdv_liq > 500) ∨
      (s = "Likely coordinated pump risk" ∧ (compute_metrics cfg now p).chg5m ≥ 15 ∧
        (compute_metrics cfg now p).chg1h ≥ 30 ∧ (compute_metrics cfg now p).liq < 50000) ∨
      (s = "Sharp dump risk" ∧ ((compute_metrics cfg now p).chg5m ≤ -15 ∨
        (compute_metrics cfg now p).chg1h ≤ -30)) ∨
      s ∈ age_flags (compute_metrics cfg now p).age_m := by
  rw [compute_metrics_flags]
  simp only [List.mem_append, mem_ite_singleton, or_assoc]

theorem cm_liq (cfg : Config) (now : ℚ) (p : Pair) :
    (compute_metrics cfg now p).liq = to_float p.liqUsd := rfl

theorem cm_vol24 (cfg : Config) (now : ℚ) (p : Pair) :
    (compute_metrics cfg now p).vol24 = to_float p.vol24h := rfl

theorem cm_fdv (cfg : Config) (now : ℚ) (p : Pair) :
    (compute_metrics cfg now p).fdv = to_float p.fdv := rfl

theorem cm_chg5m (cfg : Config) (now : ℚ) (p : Pair) :
    (compute_metrics cfg now p).chg5m = to_float p.chg5m := rfl

theorem cm_chg1h (cfg : Config) (now : ℚ) (p : Pair) :
    (compute_metrics cfg now p).chg1h = to_float p.chg1h := rfl

theorem cm_age (cfg : Config) (now : ℚ) (p : Pair) :
    (compute_metrics cfg now p).age_m = age_minutes now p.pairCreatedAt := rfl

/-- C2: for every input pair snapshot, the score returned by
`compute_metrics` lies in [0,100], and the risk label is determined purely
by the score: LOW risk iff score ≥ 70, MODERATE risk iff 50 ≤ score < 70,
HIGH risk otherwise. -/
theorem compute_metrics_score_range_label (cfg : Config) (now : ℚ) (p : Pair) :
    0 ≤ (compute_metrics cfg now p).score ∧ (compute_metrics cfg now p).score ≤ 100 ∧
    ((compute_metrics cfg now p).label = "LOW RISK (relative)" ↔
      70 ≤ (compute_metrics cfg now p).score) ∧
    ((compute_metrics cfg now p).label = "MODERATE RISK" ↔
      50 ≤ (compute_metrics cfg now p).score ∧ (compute_metrics cfg now p).score < 70) ∧
    ((compute_metrics cfg now p).label = "HIGH RISK" ↔
      (compute_metrics cfg now p).score < 50) := by
  have hs := compute_metrics_score cfg now p
  have hl := compute_metrics_label cfg now p
  set n := (compute_metrics cfg now p).score with hn
  have h0 : 0 ≤ n := by rw [hs]; exact le_max_left _ _
  have h1 : n ≤ 100 := by rw [hs]; exact max_le (by norm_num) (min_le_left _ _)
  refine ⟨h0, h1, ?_, ?_, ?_⟩
  · rw [hl]; split_ifs with hc1 hc2
    · exact iff_of_true rfl hc1
    · exact iff_of_false (by decide) (by omega)
    · exact iff_of_false (by decide) (by omega)
  · rw [hl]; split_ifs with hc1 hc2
    · exact iff_of_false (by decide) (by omega)
    · exact iff_of_true rfl ⟨hc2, by omega⟩
    · exact iff_of_false (by decide) (by omega)
  · rw [hl]; split_ifs with hc1 hc2
    · exact iff_of_false (by decide) (by omega)
    · exact iff_of_false (by decide) (by omega)
    · exact iff_of_true rfl (by omega)

/-- Witness for C2 at the all-defaults snapshot, whose score is 30. -/
theorem compute_metrics_score_range_label_witness :
    (compute_metrics defaultConfig 0 pairZero).label = "HIGH RISK" := by
  have h := compute_metrics_score_range_label defaultConfig 0 pairZero
  refine h.2.2.2.2.mpr ?_
  rw [compute_metrics_score, cm_liq, compute_metrics_v_liq, compute_metrics_fdv_liq,
    cm_liq, cm_vol24, cm_fdv, cm_chg5m, cm_chg1h]
  norm_num [raw_score, liq_step, act_step, fdv_step, pump_step, dump_step, to_float, pairZero,
    defaultConfig]

/-- C10: for every input pair snapshot, the score computed before the final
clamp already lies in [10, 80], the clamp to [0,100] never changes the
value, and the returned score is never 0 or 100. -/
theorem raw_score_clamp_no_op (cfg : Config) (now : ℚ) (p : Pair) :
    10 ≤ raw_score (compute_metrics cfg now p).liq (compute_metrics cfg now p).v_liq
      (compute_metrics cfg now p).fdv_liq (compute_metrics cfg now p).chg5m
      (compute_metrics cfg now p).chg1h ∧
    raw_score (compute_metrics cfg now p).liq (compute_metrics cfg now p).v_liq
      (compute_metrics cfg now p).fdv_liq (compute_metrics cfg now p).chg5m
      (compute_metrics cfg now p).chg1h ≤ 80 ∧
    (compute_metrics cfg now p).score =
      raw_score (compute_metrics cfg now p).liq (compute_metrics cfg now p).v_liq
        (compute_metrics cfg now p).fdv_liq (compute_metrics cfg now p).chg5m
        (compute_metrics cfg now p).chg1h ∧
    (compute_metrics cfg now p).score ≠ 0 ∧ (compute_metrics cfg now p).score ≠ 100 := by
  have hb := raw_score_in_range (compute_metrics cfg now p).liq (compute_metrics cfg now p).v_liq
    (compute_metrics cfg now p).fdv_liq (compute_metrics cfg now p).chg5m
    (compute_metrics cfg now p).chg1h
  have hs := compute_metrics_score cfg now p
  set r := raw_score (compute_metrics cfg now p).liq (compute_metrics cfg now p).v_liq
    (compute_metrics cfg now p).fdv_liq (compute_metrics cfg now p).chg5m
    (compute_metrics cfg now p).chg1h with hr
  have key : (compute_metrics cfg now p).score = r := by
    rw [hs, min_eq_right (by omega), max_eq_right (by omega)]
  refine ⟨hb.1, hb.2, key, ?_, ?_⟩ <;> rw [key] <;> omega

/-- Witness for C10 at the all-defaults snapshot. -/
theorem raw_score_clamp_no_op_witness :
    (compute_metrics defaultConfig 0 pairZero).score ≠ 0 ∧
    (compute_metrics defaultConfig 0 pairZero).score ≠ 100 :=
  ⟨(raw_score_clamp_no_op defaultConfig 0 pairZero).2.2.2.1,
   (raw_score_clamp_no_op defaultConfig 0 pairZero).2.2.2.2⟩

/-- C8: for every input pair snapshot `compute_metrics` never divides by
zero: `v_liq` is `vol24 / liq` when `liq > 0` and 0 when `liq ≤ 0`, and
`fdv_liq` is `fdv / liq` when `liq > 0` and `fdv > 0` and 0 otherwise. -/
theorem compute_metrics_ratio_safety (cfg : Config) (now : ℚ) (p : Pair) :
    ((compute_metrics cfg now p).liq ≤ 0 →
      (compute_metrics cfg now p).v_liq = 0 ∧ (compute_metrics cfg now p).fdv_liq = 0) ∧
    (0 < (compute_metrics cfg now p).liq →
      (compute_metrics cfg now p).v_liq =
        (compute_metrics cfg now p).vol24 / (compute_metrics cfg now p).liq) ∧
    (0 < (compute_metrics cfg now p).liq ∧ 0 < (compute_metrics cfg now p).fdv →
      (compute_metrics cfg now p).fdv_liq =
        (compute_metrics cfg now p).fdv / (compute_metrics cfg now p).liq) ∧
    (¬(0 < (compute_metrics cfg now p).liq ∧ 0 < (compute_metrics cfg now p).fdv) →
      (compute_metrics cfg now p).fdv_liq = 0) := by
  have hv := compute_metrics_v_liq cfg now p
  have hf := compute_metrics_fdv_liq cfg now p
  refine ⟨?_, ?_, ?_, ?_⟩
  · intro h
    constructor
    · rw [hv, if_neg (not_lt.mpr h)]
    · rw [hf, if_neg (fun hc => absurd hc.1 (not_lt.mpr h))]
  · intro h; rw [hv, if_pos h]
  · intro h; rw [hf, if_pos h]
  · intro h; rw [hf, if_neg h]

/-- Witness for C8 at a snapshot with liquidity 4, volume 2 and fdv 8. -/
theorem compute_metrics_ratio_safety_witness :
    (compute_metrics defaultConfig 0 pairRich).v_liq = 1/2 ∧
    (compute_metrics defaultConfig 0 pairRich).fdv_liq = 2 := by
  have h := compute_metrics_ratio_safety defaultConfig 0 pairRich
  have hliq : (0:ℚ) < (compute_metrics defaultConfig 0 pairRich).liq := by
    rw [cm_liq]; norm_num [to_float, pairRich]
  have hfdv : (0:ℚ) < (compute_metrics defaultConfig 0 pairRich).fdv := by
    rw [cm_fdv]; norm_num [to_float, pairRich]
  constructor
  · rw [h.2.1 hliq, cm_vol24, cm_liq]; norm_num [to_float, pairRich]
  · rw [h.2.2.1 ⟨hliq, hfdv⟩, cm_fdv, cm_liq]; norm_num [to_float, pairRich]

/-- C6: the candidate filter passes iff liquidity and volume meet their
minimums and the fdv/liquidity ratio is 0 (unknown) or within the maximum;
a zero ratio never causes a rejection on its own. -/
theorem candidate_passes_iff (cfg : Config) (m : Metrics) :
    candidate_passes cfg m = true ↔
      cfg.minLiqUsd ≤ m.liq ∧ cfg.minVol24Usd ≤ m.vol24 ∧
      (m.fdv_liq = 0 ∨ m.fdv_liq ≤ cfg.maxFdvLiq) := by
  simp only [candidate_passes]
  split_ifs with h1 h2 h3
  · exact iff_of_false (by simp) (fun hc => absurd hc.1 (not_le.mpr h1))
  · exact iff_of_false (by simp) (fun hc => absurd hc.2.1 (not_le.mpr h2))
  · refine iff_of_false (by simp) (fun hc => ?_)
    rcases hc.2.2 with hz | hle
    · exact h3.1 hz
    · exact absurd hle (not_le.mpr h3.2)
  · refine iff_of_true rfl ⟨not_lt.mp h1, not_lt.mp h2, ?_⟩
    by_cases hz : m.fdv_liq = 0
    · exact Or.inl hz
    · push_neg at h3
      exact Or.inr (h3 hz)

/-- Witness for C6: the §8 example passes the default thresholds. -/
theorem candidate_passes_iff_witness : candidate_passes defaultConfig mPass = true := by
  refine (candidate_passes_iff defaultConfig mPass).mpr ⟨?_, ?_, Or.inl rfl⟩ <;>
    norm_num [mPass, defaultConfig]

theorem pairZero_flags :
    (compute_metrics defaultConfig 0 pairZero).flags =
      ["Very low liquidity", "Low 24h volume"] := by
  rw [compute_metrics_flags, cm_liq, cm_vol24, compute_metrics_fdv_liq, cm_chg5m, cm_chg1h,
    cm_age, cm_liq, cm_fdv]
  norm_num [to_float, pairZero, defaultConfig, age_minutes, age_flags]

theorem pairDump_flags :
    (compute_metrics defaultConfig 0 pairDump).flags =
      ["Very low liquidity", "Low 24h volume", "Sharp dump risk"] := by
  rw [compute_metrics_flags, cm_liq, cm_vol24, compute_metrics_fdv_liq, cm_chg5m, cm_chg1h,
    cm_age, cm_liq, cm_fdv]
  norm_num [to_float, pairDump, defaultConfig, age_minutes, age_flags]

theorem pairPump_flags :
    (compute_metrics defaultConfig 0 pairPump).flags =
      ["Very low liquidity", "Low 24h volume"] := by
  rw [compute_metrics_flags, cm_liq, cm_vol24, compute_metrics_fdv_liq, cm_chg5m, cm_chg1h,
    cm_age, cm_liq, cm_fdv]
  norm_num [to_float, pairPump, defaultConfig, age_minutes, age_flags]

/-- C3 refutation: on the all-defaults snapshot the liquidity is 0, yet the
code's score is 30 = 50 - 15 - 5 (so no extra -10 for "liquidity ≤ 0" exists
and the -5 weak-activity adjustment fires even though liquidity ≤ 0, where
the claim allows it only for positive liquidity and would give
25 = 50 - 15 - 10), and no "No liquidity data" flag is emitted. -/
theorem compute_metrics_liquidity_counterexample :
    (compute_metrics defaultConfig 0 pairZero).liq ≤ 0 ∧
    (compute_metrics defaultConfig 0 pairZero).score = 30 ∧
    "No liquidity data" ∉ (compute_metrics defaultConfig 0 pairZero).flags := by
  refine ⟨?_, ?_, ?_⟩
  · rw [cm_liq]; norm_num [to_float, pairZero]
  · rw [compute_metrics_score, cm_liq, compute_metrics_v_liq, compute_metrics_fdv_liq,
      cm_liq, cm_vol24, cm_fdv, cm_chg5m, cm_chg1h]
    norm_num [raw_score, liq_step, act_step, fdv_step, pump_step, dump_step, to_float,
      pairZero, defaultConfig]
  · rw [pairZero_flags]; decide

/-- C3 amended: the liquidity rows the code applies are +20 for
liquidity ≥ 200,000, +10 for 50,000 ≤ liquidity < 200,000, -15 for
liquidity < 20,000 and 0 otherwise; the only liquidity flag is
"Very low liquidity" (for liquidity below the configured minimum); there is
no extra -10 row and no flag for liquidity ≤ 0, and the -5 low-activity
adjustment applies whenever `v_liq < 0.1` — including liquidity ≤ 0, where
`v_liq` is 0. -/
theorem compute_metrics_liquidity_scoring (cfg : Config) (now : ℚ) (p : Pair) :
    (compute_metrics cfg now p).score =
      max 0 (min 100 (50 + liq_adjust (compute_metrics cfg now p).liq
        + act_adjust (compute_metrics cfg now p).v_liq
        + fdv_adjust (compute_metrics cfg now p).fdv_liq
        + pump_adjust (compute_metrics cfg now p).chg5m (compute_metrics cfg now p).chg1h
        + dump_adjust (compute_metrics cfg now p).chg5m (compute_metrics cfg now p).chg1h)) ∧
    ("Very low liquidity" ∈ (compute_metrics cfg now p).flags ↔
      (compute_metrics cfg now p).liq < cfg.minLiqUsd) ∧
    "Strong liquidity" ∉ (compute_metrics cfg now p).flags ∧
    "Decent liquidity" ∉ (compute_metrics cfg now p).flags ∧
    "Low liquidity" ∉ (compute_metrics cfg now p).flags ∧
    "No liquidity data" ∉ (compute_metrics cfg now p).flags ∧
    "Weak activity" ∉ (compute_metrics cfg now p).flags ∧
    ((compute_metrics cfg now p).liq ≤ 0 → act_adjust (compute_metrics cfg now p).v_liq = -5) := by
  refine ⟨?_, ?_, ?_, ?_, ?_, ?_, ?_, ?_⟩
  · rw [compute_metrics_score, raw_score_decomp]
  · simp [mem_flags_iff, mem_age_flags]
  · simp [mem_flags_iff, mem_age_flags]
  · simp [mem_flags_iff, mem_age_flags]
  · simp [mem_flags_iff, mem_age_flags]
  · simp [mem_flags_iff, mem_age_flags]
  · simp [mem_flags_iff, mem_age_flags]
  · intro h
    have hv : (compute_metrics cfg now p).v_liq = 0 := by
      rw [compute_metrics_v_liq, if_neg (not_lt.mpr h)]
    rw [hv]; norm_num [act_adjust]

/-- Witness for C3 (amended) at the all-defaults snapshot. -/
theorem compute_metrics_liquidity_scoring_witness :
    act_adjust (compute_metrics defaultConfig 0 pairZero).v_liq = -5 := by
  refine (compute_metrics_liquidity_scoring defaultConfig 0 pairZero).2.2.2.2.2.2.2 ?_
  rw [cm_liq]; norm_num [to_float, pairZero]

/-- C4 refutation: at a 5-minute change of -15 percent the code appends
"Sharp dump risk" (its thresholds are -15 and -30) although the claimed condition
chg5m ≤ -20 or chg1h ≤ -50 is false, and at a 5-minute change of +25 percent
the claimed "Sharp pump risk" flag is absent (it is never emitted). -/
theorem compute_metrics_pump_dump_counterexample :
    ("Sharp dump risk" ∈ (compute_metrics defaultConfig 0 pairDump).flags ∧
      ¬((compute_metrics defaultConfig 0 pairDump).chg5m ≤ -20 ∨
        (compute_metrics defaultConfig 0 pairDump).chg1h ≤ -50)) ∧
    ("Sharp pump risk" ∉ (compute_metrics defaultConfig 0 pairPump).flags ∧
      (compute_metrics defaultConfig 0 pairPump).chg5m ≥ 20) := by
  refine ⟨⟨?_, ?_⟩, ?_, ?_⟩
  · rw [pairDump_flags]; decide
  · rw [cm_chg5m, cm_chg1h]; norm_num [to_float, pairDump]
  · rw [pairPump_flags]; decide
  · rw [cm_chg5m]; norm_num [to_float, pairPump]

/-- C4 amended: the score subtracts 5 exactly when chg5m ≥ 20 or
chg1h ≥ 50 and another 5 exactly when chg5m ≤ -20 or chg1h ≤ -50, but no
"Sharp pump risk" flag exists; the pump-side flag is "Likely coordinated
pump risk" (chg5m ≥ 15 and chg1h ≥ 30 and liquidity < 50,000) and the
"Sharp dump risk" flag is appended exactly when chg5m ≤ -15 or
chg1h ≤ -30. -/
theorem compute_metrics_pump_dump (cfg : Config) (now : ℚ) (p : Pair) :
    (compute_metrics cfg now p).score =
      max 0 (min 100 (50 + liq_adjust (compute_metrics cfg now p).liq
        + act_adjust (compute_metrics cfg now p).v_liq
        + fdv_adjust (compute_metrics cfg now p).fdv_liq
        + (if (compute_metrics cfg now p).chg5m ≥ 20 ∨ (compute_metrics cfg now p).chg1h ≥ 50
            then -5 else 0)
        + (if (compute_metrics cfg now p).chg5m ≤ -20 ∨ (compute_metrics cfg now p).chg1h ≤ -50
            then -5 else 0))) ∧
    "Sharp pump risk" ∉ (compute_metrics cfg now p).flags ∧
    ("Likely coordinated pump risk" ∈ (compute_metrics cfg now p).flags ↔
      (compute_metrics cfg now p).chg5m ≥ 15 ∧ (compute_metrics cfg now p).chg1h ≥ 30 ∧
        (compute_metrics cfg now p).liq < 50000) ∧
    ("Sharp dump risk" ∈ (compute_metrics cfg now p).flags ↔
      ((compute_metrics cfg now p).chg5m ≤ -15 ∨ (compute_metrics cfg now p).chg1h ≤ -30)) := by
  refine ⟨?_, ?_, ?_, ?_⟩
  · rw [compute_metrics_score, raw_score_decomp]; rfl
  · simp [mem_flags_iff, mem_age_flags]
  · simp [mem_flags_iff, mem_age_flags]
  · simp [mem_flags_iff, mem_age_flags]

/-- Witness for C4 (amended): the pump flag of the claim is indeed never
present, here at the +25 percent snapshot. -/
theorem compute_metrics_pump_dump_witness :
    "Sharp pump risk" ∉ (compute_metrics defaultConfig 0 pairPump).flags :=
  (compute_metrics_pump_dump defaultConfig 0 pairPump).2.1

theorem fbc_go_eq_dedup (chain : String) (l : List Entry) :
    ∀ (seen : List (String × String)),
      fbc_go chain l seen = dedup_first seen (l.filter (valid_for chain)) := by
  induction l with
  | nil => intro seen; rfl
  | cons e rest ih =>
    intro seen
    obtain ⟨ec, ea⟩ := e
    cases ec with
    | none => simpa [fbc_go, valid_for, List.filter_cons] using ih seen
    | some c =>
      cases ea with
      | none => simpa [fbc_go, valid_for, List.filter_cons] using ih seen
      | some a =>
        cases hc : c.isEmpty with
        | true =>
          have hval : valid_for chain ⟨some c, some a⟩ = false := by
            simp [valid_for, hc]
          simp [fbc_go, hc, List.filter_cons, hval, ih seen]
        | false =>
          cases ha : a.isEmpty with
          | true =>
            have hval : valid_for chain ⟨some c, some a⟩ = false := by
              simp [valid_for, ha]
            simp [fbc_go, hc, ha, List.filter_cons, hval, ih seen]
          | false =>
            by_cases hchain : c = chain
            · subst hchain
              have hval : valid_for c ⟨some c, some a⟩ = true := by
                simp [valid_for, hc, ha]
              have hfst : ¬(c.isEmpty = true ∨ a.isEmpty = true) := by simp [hc, ha]
              by_cases hseen : (c, a) ∈ seen
              · simp [fbc_go, hfst, hseen, List.filter_cons, hval, dedup_first,
                  entry_key, ih seen]
              · simp [fbc_go, hfst, hseen, List.filter_cons, hval, dedup_first,
                  entry_key, ih ((c, a) :: seen)]
            · have hval : valid_for chain ⟨some c, some a⟩ = false := by
                simp [valid_for, hchain]
              simp [fbc_go, hc, ha, hchain, List.filter_cons, hval, ih seen]

/-- C5: the candidate aggregator equals its description — the valid entries
of listing A followed by the novel valid entries of listing B, i.e.
first-occurrence deduplication by the (chain, address) key over the filtered
concatenation — and on the §8 example A = [(sol,X),(sol,Y)],
B = [(sol,Y),(sol,Z)] it yields the addresses X, Y, Z in order. -/
theorem fetch_boost_candidates_spec :
    (∀ (latest top : List Entry) (chain : String),
      fetch_boost_candidates latest top chain = aggregator_from_spec latest top chain) ∧
    (fetch_boost_candidates [entX, entY] [entY, entZ] "solana").map
      (fun e => e.tokenAddress.getD "") = ["X", "Y", "Z"] := by
  constructor
  · intro latest top chain
    exact fbc_go_eq_dedup chain (latest ++ top) []
  · decide

/-- Witness for C5 instantiated at the §8 example listings. -/
theorem fetch_boost_candidates_spec_witness :
    fetch_boost_candidates [entX, entY] [entY, entZ] "solana" =
      aggregator_from_spec [entX, entY] [entY, entZ] "solana" :=
  fetch_boost_candidates_spec.1 [entX, entY] [entY, entZ] "solana"

theorem rank_key_le_trans (a b c : ScoredItem) (h1 : rank_key_le a b = true)
    (h2 : rank_key_le b c = true) : rank_key_le a c = true := by
  simp only [rank_key_le, decide_eq_true_eq] at h1 h2 ⊢
  rcases h1 with h1 | ⟨h1e, h1l⟩ <;> rcases h2 with h2 | ⟨h2e, h2l⟩
  · exact Or.inl (h2.trans h1)
  · exact Or.inl (h2e ▸ h1)
  · exact Or.inl (by rw [h1e]; exact h2)
  · exact Or.inr ⟨h1e.trans h2e, le_trans h2l h1l⟩

theorem rank_key_le_total (a b : ScoredItem) :
    (rank_key_le a b || rank_key_le b a) = true := by
  simp only [rank_key_le, Bool.or_eq_true, decide_eq_true_eq]
  rcases lt_trichotomy a.m.score b.m.score with h | h | h
  · exact Or.inr (Or.inl h)
  · rcases le_total b.m.liq a.m.liq with hl | hl
    · exact Or.inl (Or.inr ⟨h, hl⟩)
    · exact Or.inr (Or.inr ⟨h.symm, hl⟩)
  · exact Or.inl (Or.inl h)

/-- C7: the ranker returns some permutation of its input sorted by score
descending then liquidity descending, truncated to the first N, and orders
the §8 example [80/10k, 80/50k, 60/1M] as [80/50k, 80/10k, 60/1M]. -/
theorem rank_scored_spec :
    (∀ (scored : List ScoredItem) (limit : Nat),
      ∃ full : List ScoredItem,
        full.Perm scored ∧
        full.Pairwise (fun x y => y.m.score < x.m.score ∨
          (x.m.score = y.m.score ∧ y.m.liq ≤ x.m.liq)) ∧
        (rank_scored scored).take limit = full.take limit) ∧
    rank_scored [mk_scored 80 10000, mk_scored 80 50000, mk_scored 60 1000000] =
      [mk_scored 80 50000, mk_scored 80 10000, mk_scored 60 1000000] := by
  constructor
  · intro scored limit
    refine ⟨rank_scored scored, List.mergeSort_perm scored rank_key_le, ?_, rfl⟩
    have h := List.sorted_mergeSort rank_key_le_trans rank_key_le_total scored
    refine List.Pairwise.imp ?_ h
    intro x y hxy
    simpa [rank_key_le, decide_eq_true_eq] using hxy
  · have h0 : rank_key_le (mk_scored 80 10000) (mk_scored 80 50000) = false := by
      norm_num [rank_key_le, mk_scored]
    have h1 : rank_key_le (mk_scored 80 50000) (mk_scored 60 1000000) = true := by
      norm_num [rank_key_le, mk_scored]
    have h2 : rank_key_le (mk_scored 80 10000) (mk_scored 60 1000000) = true := by
      norm_num [rank_key_le, mk_scored]
    simp [rank_scored, List.mergeSort, List.splitInTwo, List.splitAt, List.splitAt.go,
      List.merge, h0, h1, h2]

/-- Witness for C7 instantiated at the §8 example, truncation limit 3. -/
theorem rank_scored_spec_witness :
    (rank_scored [mk_scored 80 10000, mk_scored 80 50000, mk_scored 60 1000000]).take 3 =
      [mk_scored 80 50000, mk_scored 80 10000, mk_scored 60 1000000].take 3 := by
  rw [rank_scored_spec.2]

theorem screen_loop_error_of_mem (f : String → Except String (List Pair)) (cfg : Config)
    (now : ℚ) (chain : String) :
    ∀ (l : List Entry),
      (∃ t ∈ l, ∃ e, f (t.tokenAddress.getD "") = Except.error e) →
      ∀ r, screen_loop f cfg now chain l ≠ Except.ok r := by
  intro l
  induction l with
  | nil =>
    rintro ⟨t, ht, _⟩
    simp at ht
  | cons t rest ih =>
    rintro ⟨u, hu, e, he⟩ r hok
    rcases List.mem_cons.mp hu with rfl | hu'
    · simp only [screen_loop, he] at hok
      exact Except.noConfusion hok
    · cases hf : f (t.tokenAddress.getD "") with
      | error e2 =>
        simp only [screen_loop, hf] at hok
        exact Except.noConfusion hok
      | ok pools =>
        cases hbest : pick_best_pair pools chain with
        | none =>
          simp only [screen_loop, hf, hbest] at hok
          exact ih ⟨u, hu', e, he⟩ r hok
        | some best =>
          simp only [screen_loop, hf, hbest] at hok
          cases hrec : screen_loop f cfg now chain rest with
          | error e3 => rw [hrec] at hok; simp at hok
          | ok l2 => exact ih ⟨u, hu', e, he⟩ l2 hrec

theorem screen_loop_ok_of_empty (f : String → Except String (List Pair)) (cfg : Config)
    (now : ℚ) (chain : String) :
    ∀ (l : List Entry),
      (∀ t ∈ l, f (t.tokenAddress.getD "") = Except.ok []) →
      screen_loop f cfg now chain l = Except.ok [] := by
  intro l
  induction l with
  | nil => intro _; rfl
  | cons t rest ih =>
    intro h
    have ht := h t (List.mem_cons_self t rest)
    simp only [screen_loop, ht]
    simp only [pick_best_pair, List.filter_nil, List.mergeSort_nil]
    exact ih (fun u hu => h u (List.mem_cons_of_mem t hu))

/-- C1 (amended): a raising pool fetch aborts the whole `screen_tokens`
run — if any aggregated candidate's fetch raises, the run raises and never
returns a result list; only a fetch that succeeds with no usable pool
causes a per-candidate skip, and a run in which every fetch succeeds with
an empty pool list returns the empty result. -/
theorem screen_tokens_fetch_failure (latest top : List Entry)
    (f : String → Except String (List Pair)) (cfg : Config) (now : ℚ) (chain : String)
    (limit : Nat) :
    ((∃ t ∈ fetch_boost_candidates latest top chain, ∃ e,
        f (t.tokenAddress.getD "") = Except.error e) →
      ∀ r, screen_tokens latest top f cfg now chain limit ≠ Except.ok r) ∧
    ((∀ t ∈ fetch_boost_candidates latest top chain,
        f (t.tokenAddress.getD "") = Except.ok []) →
      screen_tokens latest top f cfg now chain limit = Except.ok []) := by
  constructor
  · intro h r hok
    cases hrec : screen_loop f cfg now chain (fetch_boost_candidates latest top chain) with
    | error e =>
      simp only [screen_tokens, hrec] at hok
      exact Except.noConfusion hok
    | ok scored =>
      exact screen_loop_error_of_mem f cfg now chain
        (fetch_boost_candidates latest top chain) h scored hrec
  · intro h
    have hloop := screen_loop_ok_of_empty f cfg now chain
      (fetch_boost_candidates latest top chain) h
    simp only [screen_tokens, hloop, rank_scored, List.mergeSort_nil, List.take_nil]

/-- C1 refutation: with a single solana candidate whose pool fetch raises
(so every pool fetch of the run fails), `screen_tokens` propagates the
exception instead of returning an empty result: there is no try/except
around the per-candidate `ds_token_pools` call. -/
theorem screen_tokens_all_fail_counterexample :
    screen_tokens [entX] [] fetch_always_raises defaultConfig 0 "solana" 25 =
      Except.error "boom" := rfl

/-- Witness for C1 at the one-candidate instances. -/
theorem screen_tokens_fetch_failure_witness :
    screen_tokens [entX] [] fetch_always_raises defaultConfig 0 "solana" 25 ≠ Except.ok [] ∧
    screen_tokens [entX] [] fetch_always_empty defaultConfig 0 "solana" 25 = Except.ok [] := by
  constructor
  · exact (screen_tokens_fetch_failure [entX] [] fetch_always_raises defaultConfig 0
      "solana" 25).1 ⟨entX, by decide, "boom", rfl⟩ []
  · exact (screen_tokens_fetch_failure [entX] [] fetch_always_empty defaultConfig 0
      "solana" 25).2 (fun t _ => rfl)

theorem jobs_get_eq_none (jobs : List (Nat × Nat)) (k : Nat) :
    jobs_get jobs k = none ↔ k ∉ jobs.map Prod.fst := by
  induction jobs with
  | nil => simp [jobs_get]
  | cons p rest ih =>
    obtain ⟨k', v⟩ := p
    by_cases h : k' = k
    · subst h; simp [jobs_get]
    · simp [jobs_get, h, ih, Ne.symm h]

theorem jobs_get_mem (jobs : List (Nat × Nat)) (k j : Nat) :
    jobs_get jobs k = some j → (k, j) ∈ jobs := by
  induction jobs with
  | nil => intro h; exact Option.noConfusion h
  | cons p rest ih =>
    obtain ⟨k', v⟩ := p
    by_cases h : k' = k
    · subst h
      intro hg
      simp [jobs_get] at hg
      subst hg
      exact List.mem_cons_self _ _
    · intro hg
      simp only [jobs_get, if_neg h] at hg
      exact List.mem_cons_of_mem _ (ih hg)

theorem reachable_inv (s : RegState) (h : Reachable s) :
    (s.jobs.map Prod.fst).Nodup ∧
    (s.jobs.map Prod.snd).Nodup ∧
    (∀ p ∈ s.jobs, p.2 < s.nextId ∧ p.2 ∉ s.cancelled) ∧
    (∀ t ∈ s.cancelled, t < s.nextId) ∧
    (∀ t, t < s.nextId → t ∉ s.cancelled → t ∈ s.jobs.map Prod.snd) := by
  induction h with
  | start => simp
  | on_step k hr ih =>
    rename_i s1
    obtain ⟨ih1, ih2, ih3, ih4, ih5⟩ := ih
    cases hg : jobs_get s1.jobs k with
    | some j =>
      simp only [autoscreen_on, hg]
      exact ⟨ih1, ih2, ih3, ih4, ih5⟩
    | none =>
      have hk : k ∉ s1.jobs.map Prod.fst := (jobs_get_eq_none _ _).mp hg
      have hv : s1.nextId ∉ s1.jobs.map Prod.snd := by
        intro hmem
        rcases List.mem_map.mp hmem with ⟨p, hp, hpe⟩
        exact absurd (hpe ▸ (ih3 p hp).1) (lt_irrefl _)
      simp only [autoscreen_on, hg]
      refine ⟨?_, ?_, ?_, ?_, ?_⟩
      · simp [List.nodup_append, ih1, hk]
      · simp [List.nodup_append, ih2, hv]
      · intro p hp
        rcases List.mem_append.mp hp with hp' | hp'
        · exact ⟨Nat.lt_succ_of_lt (ih3 p hp').1, (ih3 p hp').2⟩
        · have : p = (k, s1.nextId) := by simpa using hp'
          subst this
          refine ⟨Nat.lt_succ_self _, ?_⟩
          intro hc
          exact absurd (ih4 _ hc) (lt_irrefl _)
      · intro t ht
        exact Nat.lt_succ_of_lt (ih4 t ht)
      · intro t ht hc
        rcases Nat.lt_succ_iff_lt_or_eq.mp ht with h' | h'
        · have := ih5 t h' hc
          simp only [List.map_append, List.mem_append]
          exact Or.inl this
        · subst h'
          simp
  | off_step k hr ih =>
    rename_i s1
    obtain ⟨ih1, ih2, ih3, ih4, ih5⟩ := ih
    cases hg : jobs_get s1.jobs k with
    | none =>
      simp only [autoscreen_off, hg]
      exact ⟨ih1, ih2, ih3, ih4, ih5⟩
    | some j =>
      have hmem : (k, j) ∈ s1.jobs := jobs_get_mem _ _ _ hg
      simp only [autoscreen_off, hg]
      refine ⟨?_, ?_, ?_, ?_, ?_⟩
      · exact List.Nodup.sublist (List.Sublist.map Prod.fst (List.filter_sublist _)) ih1
      · exact List.Nodup.sublist (List.Sublist.map Prod.snd (List.filter_sublist _)) ih2
      · intro p hp
        have hp' : p ∈ s1.jobs := List.mem_of_mem_filter hp
        have hkne : p.1 ≠ k := by
          have := List.of_mem_filter hp
          simpa using this
        refine ⟨(ih3 p hp').1, ?_⟩
        intro hc
        rcases List.mem_cons.mp hc with hj | hc'
        · have hpq := List.inj_on_of_nodup_map ih2 hp' hmem hj
          exact hkne (by rw [hpq])
        · exact (ih3 p hp').2 hc'
      · intro t htc
        rcases List.mem_cons.mp htc with rfl | hc'
        · exact (ih3 _ hmem).1
        · exact ih4 t hc'
      · intro t ht hc
        have htj : t ≠ j := fun he => hc (he ▸ List.mem_cons_self _ _)
        have hc' : t ∉ s1.cancelled := fun hx => hc (List.mem_cons_of_mem _ hx)
        have htv := ih5 t ht hc'
        rcases List.mem_map.mp htv with ⟨p, hp, hpe⟩
        have hpk : p.1 ≠ k := by
          intro hk1
          have hpq := List.inj_on_of_nodup_map ih1 hp hmem hk1
          exact htj (by rw [← hpe, hpq])
        refine List.mem_map.mpr ⟨p, ?_, hpe⟩
        exact List.mem_filter.mpr ⟨hp, by simpa using hpk⟩

/-- C9: in every reachable registry state the subscriber keys are distinct
and the created, not-yet-cancelled timers are exactly the timers stored in
the registry, one per entry (so at most one active timer per key); enabling
an already-active key is a no-op that replies "Auto-screen is already ON."
and creates no timer; disabling an inactive key is a no-op. -/
theorem autoscreen_registry_invariant (s : RegState) (h : Reachable s) (k : Nat) :
    (s.jobs.map Prod.fst).Nodup ∧
    (s.jobs.map Prod.snd).Nodup ∧
    (∀ t, (t < s.nextId ∧ t ∉ s.cancelled) ↔ t ∈ s.jobs.map Prod.snd) ∧
    (∀ j, jobs_get s.jobs k = some j →
      autoscreen_on s k = (s, "Auto-screen is already ON.")) ∧
    (jobs_get s.jobs k = none → autoscreen_off s k = (s, "Auto-screen disabled.")) := by
  obtain ⟨h1, h2, h3, h4, h5⟩ := reachable_inv s h
  refine ⟨h1, h2, ?_, ?_, ?_⟩
  · intro t
    constructor
    · intro ⟨ht, hc⟩
      exact h5 t ht hc
    · intro hmem
      rcases List.mem_map.mp hmem with ⟨p, hp, hpe⟩
      exact ⟨hpe ▸ (h3 p hp).1, hpe ▸ (h3 p hp).2⟩
  · intro j hg
    simp [autoscreen_on, hg]
  · intro hg
    simp [autoscreen_off, hg]

/-- Witness for C9: after one enable of key 7 from the initial state,
enabling 7 again is a no-op that reports already on; disabling 7 in the
initial (inactive) state is a no-op. -/
theorem autoscreen_registry_invariant_witness :
    autoscreen_on ⟨[(7, 0)], 1, []⟩ 7 =
      ((⟨[(7, 0)], 1, []⟩ : RegState), "Auto-screen is already ON.") ∧
    autoscreen_off ⟨[], 0, []⟩ 7 = ((⟨[], 0, []⟩ : RegState), "Auto-screen disabled.") := by
  constructor
  · exact (autoscreen_registry_invariant ⟨[(7, 0)], 1, []⟩
      (Reachable.on_step 7 Reachable.start) 7).2.2.2.1 0 rfl
  · exact (autoscreen_registry_invariant ⟨[], 0, []⟩ Reachable.start 7).2.2.2.2 rfl
